import Mathlib

/-!
Verification development for the wsp-bot Connection & Relay Engine.

The JavaScript sources are shallowly embedded: JS strings become `String`
(manipulated through their underlying `List Char`), fallible calls become
`Except`, and the stateful connection supervisor becomes explicit state
passing.  Each embedded definition names the source function it was
translated from.
-/

namespace WspBot

/-! ## Configuration (src/config.js)

Default values of the configuration object built in `src/config.js`
(the environment-variable overrides are absent in the shipped deployment
model, so the `||` defaults apply). -/

/-- `config.n8n.retryAttempts` default (src/config.js line 26). -/
def n8n_retryAttempts : Nat := 3

/-- `config.reconnection.maxAttempts` default (src/config.js line 32). -/
def reconnection_maxAttempts : Nat := 5

/-- `config.security.messageMaxLength` default (src/config.js line 42). -/
def security_messageMaxLength : Nat := 4096

/-- The `config` object in src/config.js has no `validation` key (it has
`phoneValidation` with country metadata instead), so the expression
`config.validation.phoneNumberPattern` used by the validators throws a
`TypeError`.  We model the absent key as `none`; a hypothetical pattern
(had the key existed) would be a `some` predicate on char lists. -/
def config_validation : Option (List Char → Bool) := none

/-! ## Identifier normalizer (src/unnamed/part_003, `PhoneValidator`)

JS strings are embedded as `List Char` with `String` wrappers.  The JS
regex `/\D/g`-removal is `List.filter Char.isDigit` (both keep exactly
the ASCII digits 0-9), `startsWith` of the fixed literals "54"/"9"/"1"
is head pattern-matching, and `String.prototype.replace` with a string
pattern removes only the first occurrence, which `replaceFirst` mirrors. -/

/-- `phoneNumber.replace(/\D/g, "")`: keep only ASCII digits. -/
def cleanList (p : List Char) : List Char := p.filter Char.isDigit

/-- `s.startsWith("54")`. -/
def sw54 : List Char → Bool
  | a :: b :: _ => a == '5' && b == '4'
  | _ => false

/-- `s.startsWith("549")`. -/
def sw549 : List Char → Bool
  | a :: b :: c :: _ => a == '5' && b == '4' && c == '9'
  | _ => false

/-- `s.startsWith("9")`. -/
def sw9 : List Char → Bool
  | a :: _ => a == '9'
  | _ => false

/-- `s.startsWith("1")`. -/
def sw1 : List Char → Bool
  | a :: _ => a == '1'
  | _ => false

/-- `PhoneValidator.normalizePhoneNumber` (part_003 lines 34-66): empty
input is falsy and returns ""; otherwise strip non-digits and apply the
length/prefix rewrite table, returning unknown shapes unchanged. -/
def normalizeList (p : List Char) : List Char :=
  if p = [] then []
  else if sw54 (cleanList p) then cleanList p
  else if (cleanList p).length = 10 ∧ sw9 (cleanList p) then '5' :: '4' :: cleanList p
  else if (cleanList p).length = 8 then '5' :: '4' :: '9' :: cleanList p
  else if (cleanList p).length = 11 ∧ sw9 (cleanList p) then '5' :: '4' :: cleanList p
  else if (cleanList p).length = 9 ∧ sw1 (cleanList p) then '5' :: '4' :: '9' :: cleanList p
  else cleanList p

/-- The private-chat suffix "@c.us". -/
def cusList : List Char := ['@', 'c', '.', 'u', 's']

/-- The group-chat suffix "@g.us". -/
def gusList : List Char := ['@', 'g', '.', 'u', 's']

/-- `PhoneValidator.toWhatsAppFormat` (part_003 lines 73-81):
`normalizePhoneNumber(phoneNumber) + "@c.us"`. -/
def toWhatsAppList (p : List Char) : List Char := normalizeList p ++ cusList

/-- JS `s.replace(pat, "")` for a string pattern: remove the first
occurrence of `pat`, scanning from the left; no occurrence leaves `s`
unchanged. -/
def replaceFirst (pat : List Char) : List Char → List Char
  | [] => []
  | c :: rest =>
    if pat.isPrefixOf (c :: rest) then (c :: rest).drop pat.length
    else c :: replaceFirst pat rest

/-- `PhoneValidator.fromWhatsAppFormat` (part_003 lines 88-105): falsy
input returns ""; otherwise strip the "@c.us" then "@g.us" suffix
occurrences and prepend "54" when the remainder does not start with it. -/
def fromWhatsAppList (w : List Char) : List Char :=
  if w = [] then []
  else if sw54 (replaceFirst gusList (replaceFirst cusList w)) then
    replaceFirst gusList (replaceFirst cusList w)
  else '5' :: '4' :: replaceFirst gusList (replaceFirst cusList w)

/-- `MessageFormatter.formatPhoneNumberForWhatsApp`
(src/utils/messageFormatter.js lines 94-112): falsy input returns "";
otherwise strip non-digits, prepend "54" when missing, append "@c.us". -/
def formatPhoneNumberForWhatsAppList (p : List Char) : List Char :=
  if p = [] then []
  else
    (if sw54 (cleanList p) then cleanList p else '5' :: '4' :: cleanList p) ++ cusList

/-- String-level wrapper of `normalizeList`. -/
def normalizePhoneNumber (s : String) : String := ⟨normalizeList s.data⟩

/-- String-level wrapper of `toWhatsAppList`. -/
def toWhatsAppFormat (s : String) : String := ⟨toWhatsAppList s.data⟩

/-- String-level wrapper of `fromWhatsAppList`. -/
def fromWhatsAppFormat (s : String) : String := ⟨fromWhatsAppList s.data⟩

/-- String-level wrapper of `formatPhoneNumberForWhatsAppList`. -/
def formatPhoneNumberForWhatsApp (s : String) : String :=
  ⟨formatPhoneNumberForWhatsAppList s.data⟩

/-- `PhoneValidator.isValidPhoneNumber` (part_003 lines 12-27): falsy or
non-string input returns false; otherwise the body evaluates
`config.validation.phoneNumberPattern.test(cleanNumber)`.  Because
src/config.js defines no `validation` key (`config_validation = none`),
that property access throws and the surrounding catch returns false. -/
def isValidPhoneNumber (s : String) : Bool :=
  if s = "" then false
  else
    match config_validation with
    | none => false
    | some pat => pat (cleanList s.data)

/-- Modelled from the spec: the regex `config.validation.phoneNumberPattern`
is referenced by `PhoneValidator.isValidPhoneNumber` and both server
variants but is defined nowhere in the repository.  Spec section 4.1 says
the strict validator accepts exactly the digit-stripped forms made of the
country prefix (54) optionally present, the mobile marker (9) optionally
present, and then a subscriber number of bounded length; the canonical
examples fix the subscriber length at 10 digits, giving the pattern
`(54)?(9)?` followed by exactly ten digits. -/
def phoneNumberPatternModelled (s : List Char) : Bool :=
  s.all Char.isDigit &&
    (s.length = 10 ||
     (sw9 s && s.length = 11) ||
     (sw54 s && s.length = 12) ||
     (sw549 s && s.length = 13))

/-- Modelled from the spec: `isValidPhoneNumber` as it would behave with
the spec-described pattern present (falsy guard, strip non-digits, test
the pattern). -/
def isValidPhoneNumberModelled (s : String) : Bool :=
  if s = "" then false else phoneNumberPatternModelled (cleanList s.data)

example : normalizePhoneNumber "91134083140" = "5491134083140" := by decide
example : toWhatsAppFormat "91134083140" = "5491134083140@c.us" := by decide
example : fromWhatsAppFormat "5491134083140@c.us" = "5491134083140" := by decide
example : normalizePhoneNumber "1134083140" = "1134083140" := by decide
example : fromWhatsAppFormat (toWhatsAppFormat "1134083140") = "541134083140" := by decide
example : isValidPhoneNumberModelled "5491123456789" = true := by decide
example : isValidPhoneNumberModelled "not-a-number" = false := by decide
example : isValidPhoneNumberModelled "1134083140" = true := by decide
example : isValidPhoneNumber "5491123456789" = false := by decide
example : formatPhoneNumberForWhatsApp "11234567" = "5411234567@c.us" := by decide
example : toWhatsAppFormat "11234567" = "54911234567@c.us" := by decide

/-! ## Payload formatter validity (src/utils/messageFormatter.js)

An inbound `whatsapp-web.js` message event, restricted to the fields
`isValidMessage` reads.  JS falsiness of the string fields (`from`,
`body`) is emptiness, so absent and empty strings coincide in the model,
exactly as the `!message.from` / `!message.body` guards treat them. -/

structure WaMsg where
  fromAddr : String
  fromMe : Bool
  body : String
  hasMedia : Bool

/-- `MessageFormatter.isValidMessage` (messageFormatter.js lines 119-142):
reject events without a sender, self-originated events, events with
neither body nor media, and events whose (present) body exceeds
`config.security.messageMaxLength`; accept the rest.  The maximum is the
`maxLen` parameter (default 4096). -/
def isValidMessage (maxLen : Nat) (m : WaMsg) : Bool :=
  if m.fromAddr = "" then false
  else if m.fromMe then false
  else if m.body = "" ∧ m.hasMedia = false then false
  else if m.body ≠ "" ∧ m.body.length > maxLen then false
  else true

/-! ## Retry dispatcher (src/unnamed/part_004, `sendToN8N` / `retryWebhookSend`)

One payload's delivery.  `okFirst` is whether the initial POST issued by
`sendToN8N` receives a 2xx response, and `ok a` whether the retry POST
issued by `retryWebhookSend` at attempt counter `a` does; any non-2xx
response or transport failure is an axios rejection, i.e. `false`.  The
embedding returns the final outcome together with the total number of
HTTP POST delivery attempts performed. -/

inductive DeliveryOutcome where
  | succeeded
  | exhausted
deriving DecidableEq, Repr

/-- `WhatsAppBot.retryWebhookSend` (part_004 lines 287-318): when the
attempt counter exceeds `config.n8n.retryAttempts` it logs exhaustion and
returns without posting; otherwise it posts once and, on rejection,
recurses with the counter incremented. -/
def retryWebhookSend (maxAttempts : Nat) (ok : Nat → Bool) (attempt : Nat) :
    DeliveryOutcome × Nat :=
  if attempt > maxAttempts then (.exhausted, 0)
  else if ok attempt then (.succeeded, 1)
  else ((retryWebhookSend maxAttempts ok (attempt + 1)).1,
        (retryWebhookSend maxAttempts ok (attempt + 1)).2 + 1)
termination_by maxAttempts + 1 - attempt
decreasing_by all_goals omega

/-- `WhatsAppBot.sendToN8N` (part_004 lines 256-282): one POST; on
rejection, hand the payload to `retryWebhookSend` starting at attempt 1. -/
def sendToN8N (maxAttempts : Nat) (okFirst : Bool) (ok : Nat → Bool) :
    DeliveryOutcome × Nat :=
  if okFirst then (.succeeded, 1)
  else ((retryWebhookSend maxAttempts ok 1).1, (retryWebhookSend maxAttempts ok 1).2 + 1)

/-! ## Connection supervisor (src/unnamed/part_004)

The mutable fields of `WhatsAppBot` that the lifecycle events touch, and
the two event reactions the claims are about.  Each disconnect reaction
reports whether it scheduled a reconnect (`setTimeout` in
`handleDisconnection`). -/

structure SupState where
  isConnected : Bool
  reconnectAttempts : Nat
deriving DecidableEq, Repr

/-- `WhatsAppBot.handleDisconnection` (part_004 lines 361-379): below
`config.reconnection.maxAttempts` the counter is incremented and a
reconnect is scheduled; at the bound only a fatal log is emitted. -/
def handleDisconnection (maxAttempts : Nat) (s : SupState) : SupState × Bool :=
  if s.reconnectAttempts < maxAttempts then
    ({ s with reconnectAttempts := s.reconnectAttempts + 1 }, true)
  else (s, false)

/-- The `disconnected` event handler (part_004 lines 143-147): clear
`isConnected`, then run `handleDisconnection`. -/
def onDisconnected (maxAttempts : Nat) (s : SupState) : SupState × Bool :=
  handleDisconnection maxAttempts { s with isConnected := false }

/-- The `ready` event handler (part_004 lines 119-125): mark connected
and reset the reconnect counter. -/
def onReady (s : SupState) : SupState :=
  { s with isConnected := true, reconnectAttempts := 0 }

/-- Deliver `k` consecutive `disconnected` events (no intervening
`ready`); returns the final state and the list of per-event
scheduled-a-reconnect flags, in event order. -/
def iterDisconnects (maxAttempts : Nat) : Nat → SupState → SupState × List Bool
  | 0, s => (s, [])
  | k + 1, s =>
    ((iterDisconnects maxAttempts k (onDisconnected maxAttempts s).1).1,
     (onDisconnected maxAttempts s).2 ::
       (iterDisconnects maxAttempts k (onDisconnected maxAttempts s).1).2)

/-- The initial connected-session state with reconnect counter 0. -/
def connectedState : SupState := { isConnected := true, reconnectAttempts := 0 }

/-! ## Outbound send (src/unnamed/part_004, `WhatsAppBot.sendMessage`)

The session client's `sendMessage(address, text)` is the external
capability `clientSend`; its resolved value carries `id._serialized`.
The phone validator is the `valid` parameter so that the conditional
structure can be stated for any verdicts; the shipped instantiation is
`isValidPhoneNumber` (which claim C9 shows rejects everything). -/

structure ClientResp where
  idSerialized : String
deriving DecidableEq, Repr

structure SendReceipt where
  success : Bool
  messageId : String
  timestamp : Nat
deriving DecidableEq, Repr

inductive SendError where
  | notConnected
  | invalidRecipient
  | messageTooLong
  | clientError (msg : String)
deriving DecidableEq, Repr

/-- `WhatsAppBot.sendMessage` (part_004 lines 384-420): throw when not
connected; throw when the validator rejects `to`; compute the WhatsApp
address; throw when the text exceeds `maxLen`; delegate one send to the
client at that address; on resolution return
`{success: true, messageId: response.id._serialized, timestamp: Date.now()}`
(note: no recipient field); on rejection rethrow. -/
def sendMessage (conn : Bool) (valid : String → Bool) (maxLen : Nat)
    (clientSend : String → String → Except String ClientResp) (now : Nat)
    (to_ text : String) : Except SendError SendReceipt :=
  if conn = false then .error .notConnected
  else if valid to_ = false then .error .invalidRecipient
  else if text.length > maxLen then .error .messageTooLong
  else
    match clientSend (toWhatsAppFormat to_) text with
    | .ok resp => .ok { success := true, messageId := resp.idSerialized, timestamp := now }
    | .error e => .error (.clientError e)

/-! ## Bulk send routes (src/unnamed/part_007)

part_007 contains two `POST /send-bulk` route handlers.  Responses are
either an aggregate-level error (400/503 JSON with `success: false`) or
the 200 aggregate report.  Each embedding also returns the list of
recipients for which a session-client send was actually attempted, in
order, so that "exactly one send per identifier" is observable. -/

structure BulkResultEntry where
  number : String
  messageId : String
deriving DecidableEq, Repr

structure BulkErrorEntry where
  number : String
  errorMsg : String
deriving DecidableEq, Repr

inductive BulkResponse where
  | badRequest (msg : String)
  | unavailable
  | report (total successful failed : Nat)
      (results : List BulkResultEntry) (errors : List BulkErrorEntry)
deriving DecidableEq, Repr

/-- The second server variant's own validator (part_007 lines 1072-1078).
Unlike `PhoneValidator.isValidPhoneNumber` it has no try/catch, so with
`config_validation = none` the property access on the missing config key
throws out of the function (`Except.error`). -/
def isValidPhoneNumberServer (s : String) : Except String Bool :=
  if s = "" then .ok false
  else
    match config_validation with
    | none => .error "Cannot read properties of undefined (reading phoneNumberPattern)"
    | some pat => .ok (pat (cleanList s.data))

/-- Whether an `Except`-valued validator verdict is a definite accept. -/
def acceptsB (validate : String → Except String Bool) (n : String) : Bool :=
  match validate n with
  | .ok true => true
  | _ => false

/-- Whether a send resolves. -/
def sendOkB (send : String → Except String SendReceipt) (n : String) : Bool :=
  match send n with
  | .ok _ => true
  | .error _ => false

/-- The per-number loop of the second `/send-bulk` variant (part_007
lines 863-874): each number is validated inside its own try; accepted
numbers get one `bot.sendMessage` whose resolution appends to `results`
and whose rejection appends to `errors`; rejected numbers append a
"Número inválido" entry; a validator throw is caught by the same
per-number catch and appended to `errors`.  Returns
(results, errors, recipients a send was attempted for). -/
def sendBulkLoop (validate : String → Except String Bool)
    (send : String → Except String SendReceipt) :
    List String → List BulkResultEntry × List BulkErrorEntry × List String
  | [] => ([], [], [])
  | n :: rest =>
    match validate n with
    | .ok true =>
      match send n with
      | .ok r =>
        (⟨n, r.messageId⟩ :: (sendBulkLoop validate send rest).1,
         (sendBulkLoop validate send rest).2.1,
         n :: (sendBulkLoop validate send rest).2.2)
      | .error e =>
        ((sendBulkLoop validate send rest).1,
         ⟨n, e⟩ :: (sendBulkLoop validate send rest).2.1,
         n :: (sendBulkLoop validate send rest).2.2)
    | .ok false =>
      ((sendBulkLoop validate send rest).1,
       ⟨n, "Número inválido"⟩ :: (sendBulkLoop validate send rest).2.1,
       (sendBulkLoop validate send rest).2.2)
    | .error e =>
      ((sendBulkLoop validate send rest).1,
       ⟨n, e⟩ :: (sendBulkLoop validate send rest).2.1,
       (sendBulkLoop validate send rest).2.2)

/-- The second `/send-bulk` route (part_007 lines 833-893): parameter
check (`message` falsy is a 400), at most 50 numbers, bot connected,
then the per-number loop; always answers 200 with the aggregate
`{total, successful, failed, results, errors}` once the checks pass. -/
def sendBulkPerNumber (validate : String → Except String Bool)
    (send : String → Except String SendReceipt) (conn : Bool)
    (numbers : List String) (message : String) : BulkResponse × List String :=
  if message = "" then (.badRequest "Los parámetros \x22numbers\x22 (array) y \x22message\x22 son requeridos", [])
  else if numbers.length > 50 then (.badRequest "Máximo 50 números por envío masivo", [])
  else if conn = false then (.unavailable, [])
  else
    (.report numbers.length (sendBulkLoop validate send numbers).1.length
       (sendBulkLoop validate send numbers).2.1.length
       (sendBulkLoop validate send numbers).1
       (sendBulkLoop validate send numbers).2.1,
     (sendBulkLoop validate send numbers).2.2)

/-- `validatePhoneNumbers` (part_005 lines 548-595, also part_003 lines
186-233): split the list by `isValidPhoneNumber`, normalizing the valid
ones; `valid` is whether the invalid list is empty. -/
structure PhoneValidation where
  valid : Bool
  validNormalized : List String
  invalidOriginals : List String
deriving DecidableEq, Repr

/-- See `PhoneValidation`. -/
def validatePhoneNumbers (numbers : List String) : PhoneValidation :=
  { valid := (numbers.filter (fun n => !isValidPhoneNumber n)).isEmpty
    validNormalized :=
      (numbers.filter (fun n => isValidPhoneNumber n)).map normalizePhoneNumber
    invalidOriginals := numbers.filter (fun n => !isValidPhoneNumber n) }

/-- The per-number loop of the first `/send-bulk` variant (part_007 lines
285-305): every (already validated, normalized) number gets one send;
resolutions and rejections are collected. -/
def bulkAllLoop (send : String → Except String SendReceipt) :
    List String → List BulkResultEntry × List BulkErrorEntry × List String
  | [] => ([], [], [])
  | n :: rest =>
    match send n with
    | .ok r =>
      (⟨n, r.messageId⟩ :: (bulkAllLoop send rest).1,
       (bulkAllLoop send rest).2.1, n :: (bulkAllLoop send rest).2.2)
    | .error e =>
      ((bulkAllLoop send rest).1,
       ⟨n, e⟩ :: (bulkAllLoop send rest).2.1, n :: (bulkAllLoop send rest).2.2)

/-- The first `/send-bulk` route (part_007 lines 250-324): parameter
check, then `validatePhoneNumbers` over the whole list — any invalid
entry makes `validation.valid` false and the request is rejected with an
aggregate-level 400 before anything is sent — then the message-length
check, then the loop over the normalized valid numbers.  The report's
`total` is the count of valid numbers. -/
def sendBulkBatchValidated (send : String → Except String SendReceipt)
    (maxLen : Nat) (numbers : List String) (message : String) :
    BulkResponse × List String :=
  if message = "" then (.badRequest "Los parámetros \x22numbers\x22 (array) y \x22message\x22 son requeridos", [])
  else if (validatePhoneNumbers numbers).valid = false then
    (.badRequest "Algunos números de teléfono son inválidos", [])
  else if message.length > maxLen then
    (.badRequest "El mensaje es demasiado largo. Máximo 4096 caracteres.", [])
  else
    (.report (validatePhoneNumbers numbers).validNormalized.length
       (bulkAllLoop send (validatePhoneNumbers numbers).validNormalized).1.length
       (bulkAllLoop send (validatePhoneNumbers numbers).validNormalized).2.1.length
       (bulkAllLoop send (validatePhoneNumbers numbers).validNormalized).1
       (bulkAllLoop send (validatePhoneNumbers numbers).validNormalized).2.1,
     (bulkAllLoop send (validatePhoneNumbers numbers).validNormalized).2.2)

/-! ## Basic facts about the normalizer -/

theorem cleanList_idem (p : List Char) : cleanList (cleanList p) = cleanList p := by
  simp [cleanList, List.filter_filter]

theorem cleanList_cons_digit (a : Char) (ha : a.isDigit = true) (l : List Char) :
    cleanList (a :: l) = a :: cleanList l := by
  simp [cleanList, ha]

theorem mem_cleanList_isDigit {a : Char} {p : List Char} (h : a ∈ cleanList p) :
    a.isDigit = true :=
  List.of_mem_filter h

theorem sw54_ne_nil {l : List Char} (h : sw54 l = true) : l ≠ [] := by
  intro he; subst he; simp [sw54] at h

/-- Every character of a normalized number is an ASCII digit. -/
theorem mem_normalizeList_isDigit {a : Char} {p : List Char}
    (h : a ∈ normalizeList p) : a.isDigit = true := by
  unfold normalizeList at h
  split at h
  · simp at h
  · split at h
    · exact mem_cleanList_isDigit h
    · split at h
      · simp only [List.mem_cons] at h
        rcases h with h | h | h
        · subst h; decide
        · subst h; decide
        · exact mem_cleanList_isDigit h
      · split at h
        · simp only [List.mem_cons] at h
          rcases h with h | h | h | h
          · subst h; decide
          · subst h; decide
          · subst h; decide
          · exact mem_cleanList_isDigit h
        · split at h
          · simp only [List.mem_cons] at h
            rcases h with h | h | h
            · subst h; decide
            · subst h; decide
            · exact mem_cleanList_isDigit h
          · split at h
            · simp only [List.mem_cons] at h
              rcases h with h | h | h | h
              · subst h; decide
              · subst h; decide
              · subst h; decide
              · exact mem_cleanList_isDigit h
            · exact mem_cleanList_isDigit h

/-- Normalized numbers are fixed points of digit-stripping. -/
theorem cleanList_normalizeList (p : List Char) :
    cleanList (normalizeList p) = normalizeList p :=
  List.filter_eq_self.mpr (fun _ h => mem_normalizeList_isDigit h)

theorem normalizeList_of_sw54 (l : List Char) (hc : cleanList l = l)
    (h54 : sw54 l = true) : normalizeList l = l := by
  unfold normalizeList
  rw [if_neg (sw54_ne_nil h54)]
  simp only [hc]
  rw [if_pos h54]

theorem normalizeList_fallthrough (l : List Char) (hc : cleanList l = l)
    (h54 : ¬sw54 l = true)
    (h10 : ¬(l.length = 10 ∧ sw9 l = true)) (h8 : ¬l.length = 8)
    (h11 : ¬(l.length = 11 ∧ sw9 l = true)) (h9 : ¬(l.length = 9 ∧ sw1 l = true)) :
    normalizeList l = l := by
  by_cases hne : l = []
  · simp [normalizeList, hne]
  · unfold normalizeList
    rw [if_neg hne]
    simp only [hc]
    rw [if_neg h54, if_neg h10, if_neg h8, if_neg h11, if_neg h9]

/-- Digit-prepended clean lists normalize to themselves: they start with
"54". -/
theorem normalizeList_cons54 (c : List Char) (hc : cleanList c = c) :
    normalizeList ('5' :: '4' :: c) = '5' :: '4' :: c := by
  apply normalizeList_of_sw54
  · rw [cleanList_cons_digit '5' (by decide), cleanList_cons_digit '4' (by decide), hc]
  · simp [sw54]

theorem normalizeList_cons549 (c : List Char) (hc : cleanList c = c) :
    normalizeList ('5' :: '4' :: '9' :: c) = '5' :: '4' :: '9' :: c := by
  apply normalizeList_of_sw54
  · rw [cleanList_cons_digit '5' (by decide), cleanList_cons_digit '4' (by decide),
      cleanList_cons_digit '9' (by decide), hc]
  · simp [sw54]

/-- Idempotence of `normalizeList`: a second normalization pass returns
its input unchanged. -/
theorem normalizeList_idem (p : List Char) :
    normalizeList (normalizeList p) = normalizeList p := by
  by_cases hp : p = []
  · simp [normalizeList, hp]
  · have hcc : cleanList (cleanList p) = cleanList p := cleanList_idem p
    by_cases h54 : sw54 (cleanList p) = true
    · have he : normalizeList p = cleanList p := by
        unfold normalizeList; rw [if_neg hp, if_pos h54]
      rw [he]; exact normalizeList_of_sw54 _ hcc h54
    · by_cases h10 : (cleanList p).length = 10 ∧ sw9 (cleanList p) = true
      · have he : normalizeList p = '5' :: '4' :: cleanList p := by
          unfold normalizeList; rw [if_neg hp, if_neg h54, if_pos h10]
        rw [he]; exact normalizeList_cons54 _ hcc
      · by_cases h8 : (cleanList p).length = 8
        · have he : normalizeList p = '5' :: '4' :: '9' :: cleanList p := by
            unfold normalizeList; rw [if_neg hp, if_neg h54, if_neg h10, if_pos h8]
          rw [he]; exact normalizeList_cons549 _ hcc
        · by_cases h11 : (cleanList p).length = 11 ∧ sw9 (cleanList p) = true
          · have he : normalizeList p = '5' :: '4' :: cleanList p := by
              unfold normalizeList
              rw [if_neg hp, if_neg h54, if_neg h10, if_neg h8, if_pos h11]
            rw [he]; exact normalizeList_cons54 _ hcc
          · by_cases h9 : (cleanList p).length = 9 ∧ sw1 (cleanList p) = true
            · have he : normalizeList p = '5' :: '4' :: '9' :: cleanList p := by
                unfold normalizeList
                rw [if_neg hp, if_neg h54, if_neg h10, if_neg h8, if_neg h11, if_pos h9]
              rw [he]; exact normalizeList_cons549 _ hcc
            · have he : normalizeList p = cleanList p := by
                unfold normalizeList
                rw [if_neg hp, if_neg h54, if_neg h10, if_neg h8, if_neg h11, if_neg h9]
              rw [he]; exact normalizeList_fallthrough _ hcc h54 h10 h8 h11 h9

/-- C5.  Normalization is idempotent: for every raw phone-number input
`x`, `normalizePhoneNumber (normalizePhoneNumber x) = normalizePhoneNumber x`
(PhoneValidator.normalizePhoneNumber, part_003 lines 34-66). -/
theorem wsp_C5_normalize_idempotent (x : String) :
    normalizePhoneNumber (normalizePhoneNumber x) = normalizePhoneNumber x := by
  unfold normalizePhoneNumber
  exact congrArg String.mk (normalizeList_idem x.data)

/-- C8.  The raw input "91134083140" (11 digits, leading mobile marker 9)
is rewritten by the length/prefix table to the canonical "5491134083140",
and `toWhatsAppFormat` turns it into the private-chat network address
"5491134083140@c.us", which ends in the "@c.us" suffix. -/
theorem wsp_C8_end_to_end :
    normalizePhoneNumber "91134083140" = "5491134083140" ∧
    toWhatsAppFormat "91134083140" = "5491134083140@c.us" ∧
    cusList.isSuffixOf (toWhatsAppFormat "91134083140").data = true := by
  decide

/-- The shipped validator rejects every input: src/config.js has no
`validation` key, so `config.validation.phoneNumberPattern.test` throws
and `PhoneValidator.isValidPhoneNumber`'s catch returns false. -/
theorem isValidPhoneNumber_false (x : String) : isValidPhoneNumber x = false := by
  unfold isValidPhoneNumber config_validation
  split <;> rfl

/-- C9.  Under the shipped configuration, `isValidPhoneNumber` returns
false for every input — including the well-formed canonical
"5491123456789" — and consequently `sendMessage` on a connected session
always fails with the invalid-recipient error. -/
theorem wsp_C9_validator_always_false :
    (∀ x : String, isValidPhoneNumber x = false) ∧
    isValidPhoneNumber "5491123456789" = false ∧
    (∀ (clientSend : String → String → Except String ClientResp) (now : Nat)
        (to_ text : String),
      sendMessage true isValidPhoneNumber security_messageMaxLength
          clientSend now to_ text = .error .invalidRecipient) := by
  refine ⟨isValidPhoneNumber_false, isValidPhoneNumber_false _, ?_⟩
  intro clientSend now to_ text
  unfold sendMessage
  simp [isValidPhoneNumber_false]

/-! ## Round trip through the network form -/

theorem replaceFirst_of_not_mem {b : Char} (ps : List Char) {s : List Char}
    (h : b ∉ s) : replaceFirst (b :: ps) s = s := by
  induction s with
  | nil => rfl
  | cons c rest ih =>
    have hcb : ¬(b :: ps).isPrefixOf (c :: rest) = true := by
      intro hpre
      simp only [List.isPrefixOf, Bool.and_eq_true, beq_iff_eq] at hpre
      exact h (by simp [hpre.1])
    unfold replaceFirst
    rw [if_neg hcb, ih (fun hm => h (List.mem_cons_of_mem _ hm))]

theorem replaceFirst_append_self {b : Char} (ps : List Char) {s : List Char}
    (h : b ∉ s) : replaceFirst (b :: ps) (s ++ b :: ps) = s := by
  induction s with
  | nil =>
    simp only [List.nil_append]
    unfold replaceFirst
    rw [if_pos (List.isPrefixOf_iff_prefix.mpr (List.prefix_refl _))]
    exact List.drop_length _
  | cons c rest ih =>
    have hcb : ¬(b :: ps).isPrefixOf (c :: (rest ++ b :: ps)) = true := by
      intro hpre
      simp only [List.isPrefixOf, Bool.and_eq_true, beq_iff_eq] at hpre
      exact h (by simp [hpre.1])
    unfold replaceFirst
    simp only [List.cons_append]
    rw [if_neg hcb, ih (fun hm => h (List.mem_cons_of_mem _ hm))]

theorem at_not_mem_normalizeList (p : List Char) : '@' ∉ normalizeList p := by
  intro hm
  have := mem_normalizeList_isDigit hm
  simp at this

/-- List-level round trip: when the normalized number starts with "54",
appending "@c.us" and stripping it back (then re-checking the prefix)
reproduces the normalized number. -/
theorem roundtrip_of_sw54 (p : List Char) (h : sw54 (normalizeList p) = true) :
    fromWhatsAppList (toWhatsAppList (normalizeList p)) = normalizeList p := by
  have hto : toWhatsAppList (normalizeList p) = normalizeList p ++ cusList := by
    unfold toWhatsAppList
    rw [normalizeList_idem]
  have hmem : '@' ∉ normalizeList p := at_not_mem_normalizeList p
  have hcus : replaceFirst cusList (normalizeList p ++ cusList) = normalizeList p :=
    replaceFirst_append_self _ hmem
  have hgus : replaceFirst gusList (normalizeList p) = normalizeList p :=
    replaceFirst_of_not_mem _ hmem
  have hne : normalizeList p ++ cusList ≠ [] := by simp [cusList]
  rw [hto]
  unfold fromWhatsAppList
  rw [if_neg hne, hcus, hgus, if_pos h]

/-- C6 counterexample.  The spec-modelled strict validator accepts
"1134083140" (ten digits, prefix and mobile marker both absent), but the
normalizer leaves it without the country prefix, so `fromWhatsAppFormat`
prepends "54" on the way back and the round trip does not reproduce the
canonical identifier (it yields "541134083140"). -/
theorem wsp_C6_counterexample :
    isValidPhoneNumberModelled "1134083140" = true ∧
    fromWhatsAppFormat (toWhatsAppFormat (normalizePhoneNumber "1134083140")) ≠
      normalizePhoneNumber "1134083140" := by
  decide

/-- C6 amended.  For every input whose normalized form starts with the
country prefix "54" — in particular every valid prefixed or 9-led shape —
the round trip through the network form reproduces the canonical
identifier: `fromWhatsAppFormat (toWhatsAppFormat (normalizePhoneNumber x))
= normalizePhoneNumber x`. -/
theorem wsp_C6_amended_roundtrip (x : String)
    (h : sw54 (normalizePhoneNumber x).data = true) :
    fromWhatsAppFormat (toWhatsAppFormat (normalizePhoneNumber x)) =
      normalizePhoneNumber x := by
  unfold fromWhatsAppFormat toWhatsAppFormat normalizePhoneNumber at *
  exact congrArg String.mk (roundtrip_of_sw54 x.data h)

/-- C6 witness: the valid mobile-marker input "91134083140" normalizes to
a "54"-prefixed canonical form and round-trips to itself. -/
theorem wsp_C6_amended_roundtrip_witness :
    sw54 (normalizePhoneNumber "91134083140").data = true ∧
    isValidPhoneNumberModelled "91134083140" = true ∧
    fromWhatsAppFormat (toWhatsAppFormat (normalizePhoneNumber "91134083140")) =
      normalizePhoneNumber "91134083140" :=
  ⟨by decide, by decide, wsp_C6_amended_roundtrip "91134083140" (by decide)⟩

/-! ## Agreement of the two to-network-form implementations -/

theorem sw9_not_sw54 {l : List Char} (h : sw9 l = true) : ¬sw54 l = true := by
  intro h54
  cases l with
  | nil => simp [sw9] at h
  | cons a t =>
    cases t with
    | nil => simp [sw54] at h54
    | cons b t2 =>
      simp only [sw9, beq_iff_eq] at h
      simp only [sw54, Bool.and_eq_true, beq_iff_eq] at h54
      rw [h] at h54
      exact absurd h54.1 (by decide)

/-- C10 counterexample.  On the 8-digit local input "11234567" the two
implementations of the to-network-form operation disagree:
`MessageFormatter.formatPhoneNumberForWhatsApp` produces
"5411234567@c.us" while `PhoneValidator.toWhatsAppFormat` (which inserts
the mobile marker) produces "54911234567@c.us". -/
theorem wsp_C10_counterexample :
    formatPhoneNumberForWhatsApp "11234567" ≠ toWhatsAppFormat "11234567" := by
  decide

/-- C10 amended.  The two implementations agree on every nonempty input
whose digit-stripped form already starts with "54" or has one of the
9-led shapes (10 or 11 digits) for which the normalizer only prepends
"54"; they differ on the marker-inserting rewrites (8-digit and 1-led
9-digit shapes), on unrecognized shapes, and on the empty string. -/
theorem wsp_C10_amended_agreement (x : String) (hne : x.data ≠ [])
    (h : sw54 (cleanList x.data) = true ∨
      ((cleanList x.data).length = 10 ∧ sw9 (cleanList x.data) = true) ∨
      ((cleanList x.data).length = 11 ∧ sw9 (cleanList x.data) = true)) :
    formatPhoneNumberForWhatsApp x = toWhatsAppFormat x := by
  apply congrArg String.mk
  unfold formatPhoneNumberForWhatsAppList toWhatsAppList normalizeList
  rcases h with h54 | ⟨hlen, h9⟩ | ⟨hlen, h9⟩
  · rw [if_neg hne, if_neg hne, if_pos h54, if_pos h54]
  · rw [if_neg hne, if_neg hne, if_neg (sw9_not_sw54 h9), if_neg (sw9_not_sw54 h9),
      if_pos ⟨hlen, h9⟩]
  · rw [if_neg hne, if_neg hne, if_neg (sw9_not_sw54 h9), if_neg (sw9_not_sw54 h9),
      if_neg (by rw [hlen]; simp), if_neg (by rw [hlen]; simp),
      if_pos ⟨hlen, h9⟩]

/-- C10 witness: on the canonical "5491123456789" both implementations
produce "5491123456789@c.us". -/
theorem wsp_C10_amended_agreement_witness :
    formatPhoneNumberForWhatsApp "5491123456789" = toWhatsAppFormat "5491123456789" :=
  wsp_C10_amended_agreement "5491123456789" (by decide) (Or.inl (by decide))

/-! ## Inbound event validity -/

/-- Characterization of `isValidMessage`: an event passes iff it has a
sender address, is not self-originated, has body or media, and any
present body fits the maximum. -/
theorem isValidMessage_iff (maxLen : Nat) (m : WaMsg) :
    isValidMessage maxLen m = true ↔
      m.fromAddr ≠ "" ∧ m.fromMe = false ∧ (m.body ≠ "" ∨ m.hasMedia = true) ∧
        (m.body ≠ "" → m.body.length ≤ maxLen) := by
  unfold isValidMessage
  split_ifs with h1 h2 h3 h4
  · simp [h1]
  · simp only [Bool.false_eq_true, false_iff]
    rintro ⟨-, hb, -, -⟩
    rw [h2] at hb
    exact absurd hb (by decide)
  · simp [h3.1, h3.2]
  · simp only [Bool.false_eq_true, false_iff]
    rintro ⟨-, -, -, hlen⟩
    exact absurd (hlen h4.1) (by omega)
  · simp only [true_iff]
    refine ⟨h1, by simpa using h2, ?_, ?_⟩
    · by_cases hb : m.body = ""
      · right
        cases hmed : m.hasMedia
        · exact absurd ⟨hb, hmed⟩ h3
        · rfl
      · exact Or.inl hb
    · intro hb
      by_contra hlen
      exact h4 ⟨hb, by omega⟩

/-- A string of 4096 repeated characters is nonempty. -/
theorem replicateStr_ne_empty (n : Nat) (hn : n ≠ 0) (a : Char) :
    (⟨List.replicate n a⟩ : String) ≠ "" := by
  intro h
  have h3 : List.replicate n a = [] := congrArg String.data h
  have h4 := congrArg List.length h3
  rw [List.length_replicate] at h4
  exact hn (by simpa using h4)

/-- The length of a repeated-character string. -/
theorem replicateStr_length (n : Nat) (a : Char) :
    (⟨List.replicate n a⟩ : String).length = n := by
  show (List.replicate n a).length = n
  exact List.length_replicate n a

/-- C7.  `isValidMessage` accepts an inbound event iff it has a sender
address, is not self-originated, has a non-empty body or media, and any
present body fits the configured maximum; in particular `fromMe = true`
always rejects, a body of exactly the maximum length passes, and one
character more fails. -/
theorem wsp_C7_isValidMessage (maxLen : Nat) (m : WaMsg) :
    (isValidMessage maxLen m = true ↔
      m.fromAddr ≠ "" ∧ m.fromMe = false ∧ (m.body ≠ "" ∨ m.hasMedia = true) ∧
        (m.body ≠ "" → m.body.length ≤ maxLen)) ∧
    (m.fromMe = true → isValidMessage maxLen m = false) ∧
    isValidMessage security_messageMaxLength
      { fromAddr := "5491134083140@c.us", fromMe := false,
        body := ⟨List.replicate 4096 'a'⟩, hasMedia := false } = true ∧
    isValidMessage security_messageMaxLength
      { fromAddr := "5491134083140@c.us", fromMe := false,
        body := ⟨List.replicate 4097 'a'⟩, hasMedia := false } = false := by
  refine ⟨isValidMessage_iff maxLen m, ?_, ?_, ?_⟩
  · intro h
    simp [isValidMessage, h]
  · refine (isValidMessage_iff _ _).mpr ⟨by decide, rfl, ?_, ?_⟩
    · exact Or.inl (replicateStr_ne_empty 4096 (by omega) 'a')
    · intro hb
      rw [replicateStr_length]
      unfold security_messageMaxLength
      omega
  · by_contra hcon
    rw [Bool.not_eq_false] at hcon
    have h := ((isValidMessage_iff _ _).mp hcon).2.2.2
      (replicateStr_ne_empty 4097 (by omega) 'a')
    rw [replicateStr_length] at h
    unfold security_messageMaxLength at h
    omega

/-- C7 witness: a self-originated event is rejected. -/
theorem wsp_C7_witness :
    isValidMessage 4096 ⟨"5491134083140@c.us", true, "hola", false⟩ = false :=
  (wsp_C7_isValidMessage 4096 ⟨"5491134083140@c.us", true, "hola", false⟩).2.1 rfl

/-! ## Retry dispatcher counting -/

/-- When no retry POST ever succeeds, `retryWebhookSend` starting at
attempt `a` performs exactly `maxAttempts + 1 - a` POSTs and exhausts. -/
theorem retryWebhookSend_allFail (maxAttempts : Nat) :
    ∀ (fuel attempt : Nat), maxAttempts + 1 - attempt ≤ fuel →
      retryWebhookSend maxAttempts (fun _ => false) attempt =
        (.exhausted, maxAttempts + 1 - attempt) := by
  intro fuel
  induction fuel with
  | zero =>
    intro attempt h
    have hgt : attempt > maxAttempts := by omega
    unfold retryWebhookSend
    rw [if_pos hgt, show maxAttempts + 1 - attempt = 0 by omega]
  | succ n ih =>
    intro attempt h
    by_cases hgt : attempt > maxAttempts
    · unfold retryWebhookSend
      rw [if_pos hgt, show maxAttempts + 1 - attempt = 0 by omega]
    · unfold retryWebhookSend
      rw [if_neg hgt, if_neg (by simp), ih (attempt + 1) (by omega)]
      simp only [Prod.mk.injEq]
      exact ⟨trivial, by omega⟩

/-- A payload whose delivery never succeeds: `sendToN8N` performs the
initial POST, `retryWebhookSend` performs `maxAttempts` more, and the
pipeline exhausts after `maxAttempts + 1` POSTs in total. -/
theorem sendToN8N_allFail (maxAttempts : Nat) :
    sendToN8N maxAttempts false (fun _ => false) = (.exhausted, maxAttempts + 1) := by
  unfold sendToN8N
  rw [if_neg (by simp), retryWebhookSend_allFail maxAttempts (maxAttempts + 1) 1 (by omega)]
  simp

/-- C1 counterexample.  With the default `config.n8n.retryAttempts = 3`
and a relay target that never acknowledges, the inbound pipeline performs
4 POSTs (the initial one in `sendToN8N` plus 3 retries), not 3 as the
claim states. -/
theorem wsp_C1_counterexample :
    (sendToN8N n8n_retryAttempts false (fun _ => false)).1 = .exhausted ∧
    (sendToN8N n8n_retryAttempts false (fun _ => false)).2 = 4 ∧
    (sendToN8N n8n_retryAttempts false (fun _ => false)).2 ≠ n8n_retryAttempts := by
  rw [sendToN8N_allFail]
  refine ⟨rfl, rfl, by decide⟩

/-- C1 amended.  A payload that never succeeds reaches the exhausted
outcome after exactly `maxAttempts + 1` HTTP POST delivery attempts in
total: the one issued by `sendToN8N` plus the `maxAttempts` retries
issued by `retryWebhookSend`. -/
theorem wsp_C1_amended_attempts :
    (∀ maxAttempts : Nat,
      sendToN8N maxAttempts false (fun _ => false) = (.exhausted, maxAttempts + 1)) ∧
    sendToN8N n8n_retryAttempts false (fun _ => false) = (.exhausted, 4) :=
  ⟨sendToN8N_allFail, sendToN8N_allFail 3⟩

/-! ## Connection supervisor reconnect counting -/

/-- While the counter stays below the bound, every disconnect increments
it and schedules a reconnect. -/
theorem iterDisconnects_run (maxAttempts : Nat) :
    ∀ (k c : Nat) (b : Bool), c + k ≤ maxAttempts →
      iterDisconnects maxAttempts k ⟨b, c⟩ =
        (⟨if k = 0 then b else false, c + k⟩, List.replicate k true) := by
  intro k
  induction k with
  | zero => intro c b h; simp [iterDisconnects]
  | succ n ih =>
    intro c b h
    have hlt : c < maxAttempts := by omega
    have hstep : onDisconnected maxAttempts ⟨b, c⟩ = (⟨false, c + 1⟩, true) := by
      simp [onDisconnected, handleDisconnection, hlt]
    unfold iterDisconnects
    rw [hstep]
    simp only
    rw [ih (c + 1) false (by omega)]
    have harith : c + 1 + n = c + (n + 1) := by omega
    simp [harith, List.replicate_succ]

/-- Once the counter has reached the bound, disconnects leave the state
unchanged and schedule nothing. -/
theorem iterDisconnects_exhausted (maxAttempts : Nat) :
    ∀ (k : Nat),
      iterDisconnects maxAttempts k ⟨false, maxAttempts⟩ =
        (⟨false, maxAttempts⟩, List.replicate k false) := by
  intro k
  induction k with
  | zero => simp [iterDisconnects]
  | succ n ih =>
    have hstep : onDisconnected maxAttempts ⟨false, maxAttempts⟩ =
        (⟨false, maxAttempts⟩, false) := by
      simp [onDisconnected, handleDisconnection]
    unfold iterDisconnects
    rw [hstep]
    simp only
    rw [ih]
    simp [List.replicate_succ]

/-- Splitting a run of disconnect events. -/
theorem iterDisconnects_add (maxAttempts j k : Nat) :
    ∀ s : SupState,
      iterDisconnects maxAttempts (j + k) s =
        ((iterDisconnects maxAttempts k (iterDisconnects maxAttempts j s).1).1,
         (iterDisconnects maxAttempts j s).2 ++
           (iterDisconnects maxAttempts k (iterDisconnects maxAttempts j s).1).2) := by
  induction j with
  | zero => intro s; simp [iterDisconnects]
  | succ n ih =>
    intro s
    have harith : n + 1 + k = (n + k) + 1 := by omega
    rw [harith]
    have hL : iterDisconnects maxAttempts ((n + k) + 1) s =
        ((iterDisconnects maxAttempts (n + k) (onDisconnected maxAttempts s).1).1,
         (onDisconnected maxAttempts s).2 ::
           (iterDisconnects maxAttempts (n + k) (onDisconnected maxAttempts s).1).2) := rfl
    have hR : iterDisconnects maxAttempts (n + 1) s =
        ((iterDisconnects maxAttempts n (onDisconnected maxAttempts s).1).1,
         (onDisconnected maxAttempts s).2 ::
           (iterDisconnects maxAttempts n (onDisconnected maxAttempts s).1).2) := rfl
    rw [hL, hR, ih (onDisconnected maxAttempts s).1]
    simp

/-- C3 counterexample.  With the default `config.reconnection.maxAttempts
= 5`, after exactly 5 consecutive disconnects from the connected state
with counter 0 the supervisor is disconnected, but the 5th disconnect
still scheduled a reconnect attempt (its counter check saw 4 < 5), so a
further reconnect IS scheduled, contradicting the claim. -/
theorem wsp_C3_counterexample :
    (iterDisconnects reconnection_maxAttempts reconnection_maxAttempts
        connectedState).1.isConnected = false ∧
    (iterDisconnects reconnection_maxAttempts reconnection_maxAttempts
        connectedState).2.getLast? = some true := by
  decide

/-- C3 amended.  It takes `maxAttempts + 1` consecutive disconnects
without an intervening ready event for the supervisor to stop scheduling:
each of the first `maxAttempts` disconnects schedules a reconnect, the
final one schedules none, and the supervisor ends disconnected with the
counter saturated at `maxAttempts`. -/
theorem wsp_C3_amended_supervisor (maxAttempts : Nat) :
    iterDisconnects maxAttempts (maxAttempts + 1) connectedState =
      (⟨false, maxAttempts⟩, List.replicate maxAttempts true ++ [false]) := by
  rw [iterDisconnects_add maxAttempts maxAttempts 1 connectedState]
  have hrun := iterDisconnects_run maxAttempts maxAttempts 0 true (by omega)
  rw [show connectedState = (⟨true, 0⟩ : SupState) from rfl, hrun]
  cases maxAttempts with
  | zero => decide
  | succ m =>
    simp only [Nat.succ_ne_zero, if_false, Nat.zero_add]
    rw [iterDisconnects_exhausted (m + 1) 1]
    rfl


/-! ## Outbound send characterization -/

/-- C4 counterexample.  The success receipt built by
`WhatsAppBot.sendMessage` is `{success, messageId, timestamp}` and
carries no recipient: two sends to distinct recipients (with distinct
canonical identifiers) return identical receipts, so the receipt cannot
contain the canonical recipient. -/
theorem wsp_C4_counterexample :
    sendMessage true (fun _ => true) 4096 (fun _ _ => .ok ⟨"MID"⟩) 0
        "5491111111111" "hola" =
      sendMessage true (fun _ => true) 4096 (fun _ _ => .ok ⟨"MID"⟩) 0
        "5492222222222" "hola" ∧
    normalizePhoneNumber "5491111111111" ≠ normalizePhoneNumber "5492222222222" :=
  ⟨rfl, by decide⟩

/-- C4 amended.  `sendMessage` fails not-connected whenever the status is
not connected; otherwise fails invalid-recipient whenever the validator
rejects; otherwise fails message-too-long whenever the text exceeds the
maximum; otherwise delegates exactly one send to the session client at
the network form of the recipient and, on success, returns the receipt
`{success := true, messageId, timestamp}` — which contains the message
identifier and delivery timestamp but no recipient. -/
theorem wsp_C4_amended_sendMessage (conn : Bool) (valid : String → Bool)
    (maxLen : Nat) (clientSend : String → String → Except String ClientResp)
    (now : Nat) (to_ text : String) :
    (conn = false →
      sendMessage conn valid maxLen clientSend now to_ text = .error .notConnected) ∧
    (conn = true → valid to_ = false →
      sendMessage conn valid maxLen clientSend now to_ text = .error .invalidRecipient) ∧
    (conn = true → valid to_ = true → text.length > maxLen →
      sendMessage conn valid maxLen clientSend now to_ text = .error .messageTooLong) ∧
    (∀ resp, conn = true → valid to_ = true → text.length ≤ maxLen →
      clientSend (toWhatsAppFormat to_) text = .ok resp →
      sendMessage conn valid maxLen clientSend now to_ text =
        .ok { success := true, messageId := resp.idSerialized, timestamp := now }) ∧
    (∀ e, conn = true → valid to_ = true → text.length ≤ maxLen →
      clientSend (toWhatsAppFormat to_) text = .error e →
      sendMessage conn valid maxLen clientSend now to_ text =
        .error (.clientError e)) := by
  refine ⟨?_, ?_, ?_, ?_, ?_⟩
  · intro h
    simp [sendMessage, h]
  · intro h1 h2
    simp [sendMessage, h1, h2]
  · intro h1 h2 h3
    simp [sendMessage, h1, h2, h3]
  · intro resp h1 h2 h3 h4
    simp [sendMessage, h1, h2, Nat.not_lt.mpr h3, h4]
  · intro e h1 h2 h3 h4
    simp [sendMessage, h1, h2, Nat.not_lt.mpr h3, h4]

/-- C4 witness: a rejected and a successful call at concrete inputs. -/
theorem wsp_C4_amended_sendMessage_witness :
    sendMessage false (fun _ => true) 4096 (fun _ _ => .ok ⟨"MID"⟩) 7
        "5491123456789" "hola" = .error .notConnected ∧
    sendMessage true (fun _ => true) 4096 (fun _ _ => .ok ⟨"MID"⟩) 7
        "5491123456789" "hola" = .ok ⟨true, "MID", 7⟩ :=
  ⟨(wsp_C4_amended_sendMessage false (fun _ => true) 4096 (fun _ _ => .ok ⟨"MID"⟩)
      7 "5491123456789" "hola").1 rfl,
   (wsp_C4_amended_sendMessage true (fun _ => true) 4096 (fun _ _ => .ok ⟨"MID"⟩)
      7 "5491123456789" "hola").2.2.2.1 ⟨"MID"⟩ rfl rfl (by decide) rfl⟩

/-! ## Bulk send -/

/-- Per-number characterization of the second `/send-bulk` variant's
loop: sends are attempted exactly for the validator-accepted numbers,
every number lands in exactly one of the two lists, order is preserved,
and the counts add up. -/
theorem sendBulkLoop_spec (validate : String → Except String Bool)
    (send : String → Except String SendReceipt) :
    ∀ numbers : List String,
      (sendBulkLoop validate send numbers).1.map BulkResultEntry.number =
        numbers.filter (fun n => acceptsB validate n && sendOkB send n) ∧
      (sendBulkLoop validate send numbers).2.1.map BulkErrorEntry.number =
        numbers.filter (fun n => !(acceptsB validate n && sendOkB send n)) ∧
      (sendBulkLoop validate send numbers).2.2 =
        numbers.filter (fun n => acceptsB validate n) ∧
      (sendBulkLoop validate send numbers).1.length +
        (sendBulkLoop validate send numbers).2.1.length = numbers.length := by
  intro numbers
  induction numbers with
  | nil => simp [sendBulkLoop]
  | cons n rest ih =>
    obtain ⟨ih1, ih2, ih3, ih4⟩ := ih
    cases hv : validate n with
    | ok b =>
      cases b with
      | true =>
        cases hs : send n with
        | ok r =>
          refine ⟨?_, ?_, ?_, ?_⟩ <;>
            simp [sendBulkLoop, hv, hs, acceptsB, sendOkB, List.filter_cons,
              ih1, ih2, ih3, ih4] <;> omega
        | error e =>
          refine ⟨?_, ?_, ?_, ?_⟩ <;>
            simp [sendBulkLoop, hv, hs, acceptsB, sendOkB, List.filter_cons,
              ih1, ih2, ih3, ih4] <;> omega
      | false =>
        refine ⟨?_, ?_, ?_, ?_⟩ <;>
          simp [sendBulkLoop, hv, acceptsB, sendOkB, List.filter_cons,
            ih1, ih2, ih3, ih4] <;> omega
    | error e =>
      refine ⟨?_, ?_, ?_, ?_⟩ <;>
        simp [sendBulkLoop, hv, acceptsB, sendOkB, List.filter_cons,
          ih1, ih2, ih3, ih4] <;> omega

/-- The second server variant's validator never accepts: it throws on
every nonempty input (missing config key) and returns false on empty
input. -/
theorem acceptsB_server (n : String) :
    acceptsB isValidPhoneNumberServer n = false := by
  unfold acceptsB isValidPhoneNumberServer config_validation
  by_cases h : n = "" <;> simp [h]

/-- C2 counterexample.  On the mixed list ["not-a-number",
"5491123456789"] the first `/send-bulk` variant aborts the whole batch
with an aggregate-level 400 error (the shipped validator rejects every
entry, so `validatePhoneNumbers(...).valid` is false), and the second
variant attempts no send at all — in particular not the one send the
claim requires for the valid identifier. -/
theorem wsp_C2_counterexample :
    (sendBulkBatchValidated (fun _ => .ok ⟨true, "MID", 0⟩) 4096
        ["not-a-number", "5491123456789"] "hi").1 =
      .badRequest "Algunos números de teléfono son inválidos" ∧
    (sendBulkPerNumber isValidPhoneNumberServer (fun _ => .ok ⟨true, "MID", 0⟩) true
        ["not-a-number", "5491123456789"] "hi").2 = [] := by
  decide

/-- C2 amended.  For any non-degenerate request (non-empty message, at
most 50 numbers, at least one number): the second `/send-bulk` variant
never aborts — it returns the aggregate report, attempts exactly one send
per validator-accepted entry, puts every other entry in the failure list
(one entry each, order preserved), and the counts add up; under the
shipped configuration its validator accepts nothing, so every entry lands
in the failure list and no send is attempted; and the first variant
rejects the whole batch with an aggregate-level 400 error. -/
theorem wsp_C2_amended_bulk (send : String → Except String SendReceipt)
    (numbers : List String) (message : String)
    (hmsg : message ≠ "") (hne : numbers ≠ []) (hlen : numbers.length ≤ 50) :
    (∀ validate : String → Except String Bool,
      (sendBulkPerNumber validate send true numbers message).1 =
        .report numbers.length
          (sendBulkLoop validate send numbers).1.length
          (sendBulkLoop validate send numbers).2.1.length
          (sendBulkLoop validate send numbers).1
          (sendBulkLoop validate send numbers).2.1 ∧
      (sendBulkPerNumber validate send true numbers message).2 =
        numbers.filter (fun n => acceptsB validate n) ∧
      (sendBulkLoop validate send numbers).2.1.map BulkErrorEntry.number =
        numbers.filter (fun n => !(acceptsB validate n && sendOkB send n)) ∧
      (sendBulkLoop validate send numbers).1.length +
        (sendBulkLoop validate send numbers).2.1.length = numbers.length) ∧
    ((sendBulkPerNumber isValidPhoneNumberServer send true numbers message).2 = [] ∧
      (sendBulkLoop isValidPhoneNumberServer send numbers).2.1.map
          BulkErrorEntry.number = numbers) ∧
    (sendBulkBatchValidated send 4096 numbers message).1 =
      .badRequest "Algunos números de teléfono son inválidos" := by
  have hreport : ∀ validate : String → Except String Bool,
      sendBulkPerNumber validate send true numbers message =
        (.report numbers.length
          (sendBulkLoop validate send numbers).1.length
          (sendBulkLoop validate send numbers).2.1.length
          (sendBulkLoop validate send numbers).1
          (sendBulkLoop validate send numbers).2.1,
         (sendBulkLoop validate send numbers).2.2) := by
    intro validate
    unfold sendBulkPerNumber
    rw [if_neg hmsg, if_neg (by omega), if_neg (by decide)]
  refine ⟨?_, ?_, ?_⟩
  · intro validate
    have hspec := sendBulkLoop_spec validate send numbers
    rw [hreport validate]
    exact ⟨rfl, hspec.2.2.1, hspec.2.1, hspec.2.2.2⟩
  · have hspec := sendBulkLoop_spec isValidPhoneNumberServer send numbers
    constructor
    · rw [hreport isValidPhoneNumberServer]
      rw [hspec.2.2.1]
      simp [acceptsB_server]
    · rw [hspec.2.1]
      simp [acceptsB_server]
  · have hval : (validatePhoneNumbers numbers).valid = false := by
      unfold validatePhoneNumbers
      simp only [isValidPhoneNumber_false, Bool.not_false, List.filter_true]
      cases numbers with
      | nil => exact absurd rfl hne
      | cons a t => rfl
    unfold sendBulkBatchValidated
    rw [if_neg hmsg, if_pos hval]

/-- C2 witness for the amended statement at the spec's example list. -/
theorem wsp_C2_amended_bulk_witness :
    (sendBulkBatchValidated (fun _ => Except.ok ⟨true, "MID", 0⟩) 4096
        ["not-a-number", "5491123456789"] "hola").1 =
      .badRequest "Algunos números de teléfono son inválidos" ∧
    (sendBulkPerNumber isValidPhoneNumberServer
        (fun _ => Except.ok ⟨true, "MID", 0⟩) true
        ["not-a-number", "5491123456789"] "hola").2 = [] :=
  have h := wsp_C2_amended_bulk (fun _ => Except.ok ⟨true, "MID", 0⟩)
    ["not-a-number", "5491123456789"] "hola" (by decide) (by decide) (by decide)
  ⟨h.2.2, h.2.1.1⟩


end WspBot
